import Mathlib

set_option maxRecDepth 100000

/-!
Verification of the two utility scripts of the Humphrey repository:
`tools/bench.py` (benchmark driver and TikZ report renderer) and
`tools/pkg_tex_src.py` (source packager).

Modelling conventions:
* Python float values are modelled as exact rational numbers carried as an
  unreduced numerator/denominator pair (`PyFloat`); `PyFloat.val` maps a pair
  to the rational number it denotes.  All values the scripts manipulate are
  decimal literals and quotients by powers of ten, which every IEEE-754 value
  produced here denotes exactly in this idealisation.
* Python exceptions are modelled with `Except PyError`; the three failure
  shapes the scripts can raise are the generic `Exception` thrown by
  `parse_bench_results` (`metricNotFound`), `IndexError` from list indexing
  (`indexError`) and `ValueError` from `float()` (`valueError`).
* The external `ab` invocation performed by `bench_cmd` is I/O; it is modelled
  as an oracle `BenchArgs → String` mapping the command-line parameters
  `(n, c, k, port, php)` to the textual report the command leaves in `out.txt`.
-/

/-- Failure shapes of the Python scripts: the generic `Exception` raised by
`parse_bench_results` when the field label is absent, `IndexError` from list
indexing, and `ValueError` from `float()` on an unparsable token. -/
inductive PyError where
  | metricNotFound
  | indexError
  | valueError
deriving DecidableEq, Repr

/-- A Python float modelled as the exact rational `num / den` (unreduced).
Every value handled by `bench.py` is a finite decimal, hence exactly
representable. -/
structure PyFloat where
  num : Int
  den : Nat
deriving DecidableEq, Repr

/-- The rational number a `PyFloat` denotes. -/
def PyFloat.val (q : PyFloat) : ℚ := (q.num : ℚ) / (q.den : ℚ)

/-- Division of a float by an integer (exact in the rational idealisation);
models the `/ 1000` applied to the requests-per-second metric. -/
def PyFloat.divNat (q : PyFloat) (n : Nat) : PyFloat := ⟨q.num, q.den * n⟩

/-- Value of a digit string, most significant digit first. -/
def digitsVal (l : List Char) : Nat :=
  l.foldl (fun a c => 10 * a + (c.toNat - 48)) 0

/-- Parse the exponent suffix of a float literal (empty, or `e`/`E` followed by
an optional sign and digits); returns the exponent. -/
def parseExpPart : List Char → Option Int
  | [] => some 0
  | c :: rest =>
    if c = 'e' ∨ c = 'E' then
      match rest with
      | '-' :: r =>
        if r ≠ [] ∧ r.all Char.isDigit then some (-(digitsVal r : Int)) else none
      | '+' :: r =>
        if r ≠ [] ∧ r.all Char.isDigit then some ((digitsVal r : Int)) else none
      | r =>
        if r ≠ [] ∧ r.all Char.isDigit then some ((digitsVal r : Int)) else none
    else none

/-- CPython's `float()` constructor on the decimal tokens occurring in `ab`
reports: optional sign, digits with an optional decimal point (at least one
digit overall), optional exponent.  (`inf`/`nan` spellings and underscore
separators cannot occur in the scraped tokens and are not modelled.)  Returns
`none` where `float()` raises `ValueError`. -/
def pyFloatOfString (s : String) : Option PyFloat :=
  let signCs : Int × List Char :=
    match s.data with
    | '-' :: rest => (-1, rest)
    | '+' :: rest => (1, rest)
    | cs => (1, cs)
  let sign := signCs.1
  let cs := signCs.2
  let intPart := cs.takeWhile Char.isDigit
  let r1 := cs.dropWhile Char.isDigit
  let fracRest : List Char × List Char :=
    match r1 with
    | '.' :: t => (t.takeWhile Char.isDigit, t.dropWhile Char.isDigit)
    | _ => ([], r1)
  let fracPart := fracRest.1
  let r2 := fracRest.2
  if intPart = [] ∧ fracPart = [] then none
  else
    match parseExpPart r2 with
    | none => none
    | some e =>
      let mant : Nat := digitsVal (intPart ++ fracPart)
      if 0 ≤ e then
        some ⟨sign * ((mant * 10 ^ e.toNat : Nat) : Int), 10 ^ fracPart.length⟩
      else
        some ⟨sign * (mant : Int), 10 ^ fracPart.length * 10 ^ (-e).toNat⟩

/-- Whether `pat` occurs as a contiguous sublist of the second list; executable
counterpart of Python's substring test. -/
def listContainsSub (pat : List Char) : List Char → Bool
  | [] => pat.isEmpty
  | c :: rest => pat.isPrefixOf (c :: rest) || listContainsSub pat rest

/-- Python's `pat in s` substring test. -/
def strIn (pat s : String) : Bool := listContainsSub pat.data s.data

/-- Split a character list at every character satisfying `p`, keeping empty
segments (the behaviour of Python's `str.split(sep)` for a one-character
separator when `p` tests for that character). -/
def splitOnPred (p : Char → Bool) : List Char → List (List Char)
  | [] => [[]]
  | c :: rest =>
    if p c then [] :: splitOnPred p rest
    else
      match splitOnPred p rest with
      | [] => [[c]]
      | l :: ls => (c :: l) :: ls

/-- Python's `results.split("\n")`. -/
def pySplitNl (s : String) : List String :=
  (splitOnPred (fun c => c = '\n') s.data).map String.mk

/-- Python's `str.split()` with no separator: split on whitespace, discarding
empty tokens. -/
def pySplitWs (s : String) : List String :=
  ((splitOnPred Char.isWhitespace s.data).map String.mk).filter (fun t => t ≠ "")

/-- Python's slice `s[n:]` (by code point, as in Python). -/
def strDrop (s : String) (n : Nat) : String := String.mk (s.data.drop n)

/-- The computation `float(line[24:].split()[0])` applied by
`parse_bench_results` to the first line containing the field label:
`IndexError` when no token follows offset 24, `ValueError` when the token is
not a float literal. -/
def lineValue (line : String) : Except PyError PyFloat :=
  match pySplitWs (strDrop line 24) with
  | [] => Except.error PyError.indexError
  | tok :: _ =>
    match pyFloatOfString tok with
    | none => Except.error PyError.valueError
    | some v => Except.ok v

/-- The `for line in results.split("\n")` loop of `parse_bench_results`:
return on the first line containing the label, raise the generic exception
after exhausting all lines. -/
def parseLines (field : String) : List String → Except PyError PyFloat
  | [] => Except.error PyError.metricNotFound
  | line :: rest =>
    if strIn field line then lineValue line else parseLines field rest

/-- `parse_bench_results(results, field)` from `tools/bench.py`. -/
def parse_bench_results (results field : String) : Except PyError PyFloat :=
  parseLines field (pySplitNl results)

deriving instance DecidableEq for Except

/-- Decimal rendering of the nonnegative exact rational `m / den`: the
shortest decimal expansion, always with at least one fractional digit.  This
models CPython's `str()` on the float values the script prints (each a
terminating decimal in this idealisation, rendered by its shortest expansion).
The fallback for a non-terminating quotient can never be reached from a value
denoted by a float. -/
def pyStrAux (m den : Nat) : String :=
  match (List.range 1200).find? (fun k => (m * 10 ^ k) % den = 0) with
  | some k =>
    let digits := toString ((m * 10 ^ k) / den)
    if k = 0 then digits ++ ".0"
    else
      let padded := String.mk (List.replicate (k + 1 - digits.data.length) '0') ++ digits
      let cut := padded.data.length - k
      String.mk (padded.data.take cut) ++ "." ++ String.mk (padded.data.drop cut)
  | none => toString m ++ "/" ++ toString den

/-- CPython's `str()` on a float value. -/
def pyStr (q : PyFloat) : String :=
  if q.num < 0 then "-" ++ pyStrAux q.num.natAbs q.den else pyStrAux q.num.natAbs q.den

/-- The colour palette `COLOURS` of `tools/bench.py`. -/
def COLOURS : List String := ["green", "orange", "red"]

/-- Python list indexing `l[i]`: raises `IndexError` when out of range. -/
def pyIndex {α : Type} (l : List α) (i : Nat) : Except PyError α :=
  if h : i < l.length then Except.ok (l.get ⟨i, h⟩) else Except.error PyError.indexError

/-- The inner `for x in range(len(results[server]))` loop of `generate_tex`,
appending one `"({}, {}) ".format(x + 1, results[server][x])` pair per
sample. -/
def coordLoop (vs : List PyFloat) : String :=
  (List.range vs.length).foldl
    (fun acc x => acc ++ ("(" ++ toString (x + 1) ++ ", " ++ pyStr (vs.getD x ⟨0, 1⟩) ++ ") "))
    ""

/-- The outer `for (i, server) in enumerate(results.keys())` loop of
`generate_tex`, with `i` the running `enumerate` index used to index
`COLOURS`. -/
def plotsLoop : Nat → List (String × List PyFloat) → Except PyError String
  | _, [] => Except.ok ""
  | i, kv :: rest =>
    match pyIndex COLOURS i with
    | Except.error e => Except.error e
    | Except.ok colour =>
      match plotsLoop (i + 1) rest with
      | Except.error e => Except.error e
      | Except.ok restS =>
        Except.ok ("\\addplot[color=" ++ colour ++ ", mark=square]\ncoordinates \x7b\n"
          ++ coordLoop kv.2 ++ "\x7d;\n" ++ restS)

/-- The axis-option preamble built by `generate_tex` before the plot loop.
The four bounds are declared `int` in the source signature; the single call
site that passes a float (`ymax=0.5`) only changes this header text. -/
def axisHeader (xlabel ylabel : String) (xmin xmax ymin ymax : Int)
    (xtick ytick : List String) : String :=
  "\\begin\x7bcenter\x7d\n\\begin\x7btikzpicture\x7d\n\\begin\x7baxis\x7d[\n"
  ++ "xlabel=\x7b" ++ xlabel ++ "\x7d,\n"
  ++ "ylabel=\x7b" ++ ylabel ++ "\x7d,\n"
  ++ "xmin=" ++ toString xmin ++ ", " ++ "xmax=" ++ toString xmax ++ ",\n"
  ++ "ymin=" ++ toString ymin ++ ", " ++ "ymax=" ++ toString ymax ++ ",\n"
  ++ "xtick=\x7b" ++ String.intercalate "," xtick ++ "\x7d,\n"
  ++ "ytick=\x7b" ++ String.intercalate "," ytick ++ "\x7d,\n"
  ++ "scaled y ticks=false,\nlegend pos=north west,\nymajorgrids=true,\ngrid style=dashed,\n]\n"

/-- The legend line and closing environment markup appended by `generate_tex`
after the plot loop. -/
def legendFooter (results : List (String × List PyFloat)) : String :=
  "\\legend\x7b" ++ String.intercalate "," (results.map Prod.fst) ++ "\x7d\n"
  ++ "\\end\x7baxis\x7d\n\\end\x7btikzpicture\x7d\n\\end\x7bcenter\x7d\n"

/-- `generate_tex` from `tools/bench.py`.  The `results` dict is modelled as an
association list in insertion order (Python dicts iterate in insertion order,
and `results[server]` with `server` drawn from `results.keys()` yields the
paired series).  Raises `IndexError` via the colour lookup when there are more
series than colours. -/
def generate_tex (xlabel ylabel : String) (xmin xmax ymin ymax : Int)
    (xtick ytick : List String) (results : List (String × List PyFloat)) :
    Except PyError String :=
  match plotsLoop 0 results with
  | Except.error e => Except.error e
  | Except.ok plots =>
    Except.ok (axisHeader xlabel ylabel xmin xmax ymin ymax xtick ytick ++ plots
      ++ legendFooter results)

/-- `CORES_LIMIT` from `tools/bench.py`. -/
def CORES_LIMIT : Nat := 8

/-- `REQUESTS` from `tools/bench.py`. -/
def REQUESTS : Nat := 100000

/-- The `PORTS` dict of `tools/bench.py`, in insertion order. -/
def PORTS : List (String × Nat) := [("Humphrey", 80), ("Nginx", 8000), ("Apache", 8080)]

/-- The keys of the `results_rps` dict of `core`, in insertion order: the
servers the driver iterates over. -/
def SERVERS : List String := ["Humphrey", "Nginx", "Apache"]

/-- The parameters `(n, c, k, port, php)` of one `bench_cmd` invocation. -/
structure BenchArgs where
  n : Nat
  c : Nat
  k : Bool
  port : Nat
  php : Bool
deriving DecidableEq, Repr

/-- The two series built for one endpoint, together with the trace of
`bench_cmd` invocations made while building them. -/
structure TrialsResult where
  rps : List PyFloat
  tpr : List PyFloat
  trace : List BenchArgs
deriving DecidableEq, Repr

/-- The two series dicts built by `core` (as association lists in insertion
order), together with the trace of `bench_cmd` invocations. -/
structure CoreResult where
  rps : List (String × List PyFloat)
  tpr : List (String × List PyFloat)
  trace : List BenchArgs
deriving DecidableEq, Repr

/-- The body of the inner `for i in range(CORES_LIMIT)` loop of `core`, run
over a list of remaining values of `i`: each iteration invokes the load
generator (modelled by the oracle `bench`) with `n = REQUESTS`,
`c = i + 1`, keep-alive on and `php = False`, parses the two metrics and
appends `rps / 1000` and `tpr` to the two series.  Any parse failure aborts
the whole computation, as the uncaught Python exception does. -/
def runTrials (bench : BenchArgs → String) (port : Nat) :
    List Nat → Except PyError TrialsResult
  | [] => Except.ok ⟨[], [], []⟩
  | i :: rest =>
    match parse_bench_results (bench ⟨REQUESTS, i + 1, true, port, false⟩)
        "Requests per second" with
    | Except.error e => Except.error e
    | Except.ok rps =>
      match parse_bench_results (bench ⟨REQUESTS, i + 1, true, port, false⟩)
          "Time per request" with
      | Except.error e => Except.error e
      | Except.ok tpr =>
        match runTrials bench port rest with
        | Except.error e => Except.error e
        | Except.ok r =>
          Except.ok ⟨rps.divNat 1000 :: r.rps, tpr :: r.tpr,
            ⟨REQUESTS, i + 1, true, port, false⟩ :: r.trace⟩

/-- The outer `for server in results_rps.keys()` loop of `core`, producing the
two series dicts and the trace of oracle invocations. -/
def coreLoop (bench : BenchArgs → String) : List String → Except PyError CoreResult
  | [] => Except.ok ⟨[], [], []⟩
  | server :: rest =>
    match runTrials bench ((PORTS.lookup server).getD 0) (List.range CORES_LIMIT) with
    | Except.error e => Except.error e
    | Except.ok r =>
      match coreLoop bench rest with
      | Except.error e => Except.error e
      | Except.ok rs =>
        Except.ok ⟨(server, r.rps) :: rs.rps, (server, r.tpr) :: rs.tpr, r.trace ++ rs.trace⟩

/-- The series-gathering phase of `core` from `tools/bench.py`; the subsequent
two `generate_tex` calls consume the returned dicts. -/
def core (bench : BenchArgs → String) : Except PyError CoreResult :=
  coreLoop bench SERVERS

/-- `EXTENSIONS` from `tools/pkg_tex_src.py`. -/
def EXTENSIONS : List String := [".rs", ".conf"]

/-- `SEPARATE_TESTS` from `tools/pkg_tex_src.py`. -/
def SEPARATE_TESTS : Bool := true

/-- The extension filter `any(name.endswith(ext) for ext in EXTENSIONS)`. -/
def extensionMatches (name : String) : Bool :=
  EXTENSIONS.any (fun ext => ext.data.isSuffixOf name.data)

/-- Python's `str.replace(old, new)` for a one-character `old` (the only form
the packager uses): every occurrence of `a` is replaced by `b`, and
replacements are not rescanned. -/
def replaceCharStr (a : Char) (b : String) : List Char → List Char
  | [] => []
  | c :: rest =>
    if c = a then b.data ++ replaceCharStr a b rest else c :: replaceCharStr a b rest

/-- String version of `replaceCharStr`. -/
def strReplace1 (s : String) (a : Char) (b : String) : String :=
  String.mk (replaceCharStr a b s.data)

/-- `OUTPUT_STRING.format(escaped, modified)` from `tools/pkg_tex_src.py`. -/
def OUTPUT_STRING (escaped modified : String) : String :=
  "\\subsubsection\x7b" ++ escaped ++ "\x7d\n\\inputminted[breaklines]\x7brust\x7d\x7bpkg/"
  ++ modified ++ "\x7d\n\n"

/-- The outcome of processing one discovered file: where its copy is placed,
which output stream its markup entry goes to, and the entry text. -/
structure FileResult where
  destPath : String
  toTests : Bool
  texEntry : String
deriving DecidableEq, Repr

/-- Per-file processing of the `os.walk` loop in `tools/pkg_tex_src.py` for a
file `name` found under directory `root`, where `sep` is the platform path
separator that `os.walk`/`os.path.join` use.  `original_path` is
`os.path.join(root, name)[2:]`, which strips the leading dot-separator pair;
the escaped and modified paths then replace backslashes and underscores
exactly as the source lines do (the source replaces the literal character
`"\\"`, not the platform separator).  The copy target is
`"pkg/" + modified_path`, and the entry goes to the tests stream exactly when
`"tests" in original_path and SEPARATE_TESTS`. -/
def processFile (sep root name : String) : FileResult :=
  let original_path := strDrop (root ++ sep ++ name) 2
  let escaped_path := strReplace1 (strReplace1 original_path '\\' "/") '_' "\\_"
  let modified_path := strReplace1 (strReplace1 original_path '\\' "-") '_' "-"
  { destPath := "pkg/" ++ modified_path
    toTests := strIn "tests" original_path && SEPARATE_TESTS
    texEntry := OUTPUT_STRING escaped_path modified_path }

/-- Concatenation of a list of markup fragments, in order. -/
def concatAll : List String → String
  | [] => ""
  | s :: rest => s ++ concatAll rest

/-- Transcribed from the spec: the point of one coordinate block carrying the
sample of (0-based) trial `j`, rendered as the pair of the 1-based trial index
and the sample value. -/
def specPoint (j : Nat) (v : PyFloat) : String :=
  "(" ++ toString (j + 1) ++ ", " ++ pyStr v ++ ") "

/-- Transcribed from the spec: the points of one coordinate block — one point
per sample, numbered from 1, the j-th carrying the j-th sample. -/
def specPoints (vs : List PyFloat) : List String :=
  (List.range vs.length).map (fun j => specPoint j (vs.getD j ⟨0, 1⟩))

/-- Transcribed from the spec: one coordinate block — an `\addplot` line with
the given colour followed by the block of points of the series. -/
def specBlock (colour : String) (vs : List PyFloat) : String :=
  "\\addplot[color=" ++ colour ++ ", mark=square]\ncoordinates \x7b\n"
  ++ concatAll (specPoints vs) ++ "\x7d;\n"

/-- Transcribed from the spec: one coordinate block per series key in input
order, the block at position `i` (counting from `start`) taking the colour at
the same position of the palette. -/
def specBlocksFrom : Nat → List (String × List PyFloat) → List String
  | _, [] => []
  | i, kv :: rest => specBlock (COLOURS.getD i "") kv.2 :: specBlocksFrom (i + 1) rest

/-- The coordinate blocks of a whole series mapping. -/
def specBlocks (results : List (String × List PyFloat)) : List String :=
  specBlocksFrom 0 results

/-- The spec's concrete renderer example, the series mapping
`{"A": [10.0, 20.0], "B": [5.0, 15.0]}`. -/
def demoSeries : List (String × List PyFloat) :=
  [("A", [⟨10, 1⟩, ⟨20, 1⟩]), ("B", [⟨5, 1⟩, ⟨15, 1⟩])]

/-- A well-formed `ab` report used to exercise the driver model. -/
def goodReport : String :=
  "Requests per second:    1234.5 [#/sec] (mean)\nTime per request:       0.405 [ms] (mean)"

/-- The driver state after a run in which every trial reports `goodReport`. -/
def goodRun : CoreResult :=
  ⟨SERVERS.map (fun s => (s, List.replicate CORES_LIMIT ⟨12345, 10000⟩)),
    SERVERS.map (fun s => (s, List.replicate CORES_LIMIT ⟨405, 1000⟩)),
    SERVERS.bind (fun server => (List.range CORES_LIMIT).map
      (fun i => BenchArgs.mk REQUESTS (i + 1) true ((PORTS.lookup server).getD 0) false))⟩

/-- The series built from a single trial reporting `goodReport`. -/
def goodTrial : TrialsResult :=
  ⟨[⟨12345, 10000⟩], [⟨405, 1000⟩], [⟨100000, 1, true, 80, false⟩]⟩

/-- The line loop of `parse_bench_results` evaluates the first line containing
the label and ignores everything after it. -/
theorem parseLines_of_find (field : String) (l : List String) (line : String)
    (h : l.find? (fun s => strIn field s) = some line) :
    parseLines field l = lineValue line := by
  induction l with
  | nil => simp [List.find?] at h
  | cons a rest ih =>
    by_cases ha : strIn field a
    · rw [List.find?_cons_of_pos _ ha] at h
      cases h
      simp [parseLines, ha]
    · rw [List.find?_cons_of_neg _ (by simpa using ha)] at h
      simp [parseLines, ha, ih h]

/-- The line loop of `parse_bench_results` raises the generic exception when
no line contains the label. -/
theorem parseLines_of_no_label (field : String) (l : List String)
    (h : ∀ s ∈ l, strIn field s = false) :
    parseLines field l = Except.error PyError.metricNotFound := by
  induction l with
  | nil => rfl
  | cons a rest ih =>
    have ha := h a (by simp)
    simp [parseLines, ha, ih (fun s hs => h s (by simp [hs]))]

/-- Claim C2: for every report string in which no line contains the field label
as a substring, `parse_bench_results` returns no value and raises the
metric-not-found error (`Exception("Could not find field in output")`). -/
theorem parse_bench_results_no_label (results field : String)
    (h : ∀ line ∈ pySplitNl results, strIn field line = false) :
    parse_bench_results results field = Except.error PyError.metricNotFound :=
  parseLines_of_no_label field (pySplitNl results) h

theorem parse_bench_results_no_label_witness :
    parse_bench_results "Connection Times (ms)\nTotal: 100" "Requests per second"
      = Except.error PyError.metricNotFound :=
  parse_bench_results_no_label _ _ (by decide)

/-- Claim C10: `parse_bench_results` examines only the first line containing
the label (its result is fully determined by that line, so later occurrences
are ignored); when that line has no whitespace-delimited token at or beyond
character offset 24 it raises `IndexError`, a failure distinct from the
metric-not-found exception. -/
theorem parse_bench_results_examines_only_first (results field line : String)
    (h : (pySplitNl results).find? (fun s => strIn field s) = some line) :
    parse_bench_results results field = lineValue line ∧
      (pySplitWs (strDrop line 24) = [] →
        parse_bench_results results field = Except.error PyError.indexError) ∧
      PyError.indexError ≠ PyError.metricNotFound := by
  have hfirst := parseLines_of_find field (pySplitNl results) line h
  refine ⟨hfirst, fun he => ?_, by decide⟩
  show parseLines field (pySplitNl results) = _
  rw [hfirst]
  unfold lineValue
  rw [he]

theorem parse_bench_results_examines_only_first_witness :
    parse_bench_results "Requests per second\nRequests per second:    99.9"
        "Requests per second" = lineValue "Requests per second" ∧
      (pySplitWs (strDrop "Requests per second" 24) = [] →
        parse_bench_results "Requests per second\nRequests per second:    99.9"
          "Requests per second" = Except.error PyError.indexError) ∧
      PyError.indexError ≠ PyError.metricNotFound :=
  parse_bench_results_examines_only_first _ _ _ (by decide)

/-- Claim C1 counterexample: this report has a line (its second) containing the
label whose text from offset 24 onward starts with a token parsing to the
float 1234.5, yet `parse_bench_results` does not return 1234.5: the label also
occurs in the shorter first line, which is the one examined, and the call
raises `IndexError`.  The position of other label occurrences therefore does
matter. -/
theorem parse_bench_results_earlier_label_cex :
    (pySplitNl "Requests per second\nRequests per second:    1234.5 [#/sec] (mean)").contains
        "Requests per second:    1234.5 [#/sec] (mean)" = true ∧
      strIn "Requests per second" "Requests per second:    1234.5 [#/sec] (mean)" = true ∧
      lineValue "Requests per second:    1234.5 [#/sec] (mean)" = Except.ok ⟨12345, 10⟩ ∧
      (⟨12345, 10⟩ : PyFloat).val = 1234.5 ∧
      parse_bench_results "Requests per second\nRequests per second:    1234.5 [#/sec] (mean)"
          "Requests per second" = Except.error PyError.indexError := by
  refine ⟨by decide, by decide, by decide, ?_, by decide⟩
  norm_num [PyFloat.val]

/-- Claim C1 (amended): whenever the first line of the report containing the
field label has, from character offset 24 onward, a leading
whitespace-delimited token that parses as a float, `parse_bench_results`
returns that number; in particular it returns 1234.5 on the spec's concrete
report text. -/
theorem parse_bench_results_first_label_line (results field line tok : String) (v : PyFloat)
    (h1 : (pySplitNl results).find? (fun s => strIn field s) = some line)
    (h2 : (pySplitWs (strDrop line 24)).head? = some tok)
    (h3 : pyFloatOfString tok = some v) :
    parse_bench_results results field = Except.ok v := by
  have hfirst := parseLines_of_find field (pySplitNl results) line h1
  show parseLines field (pySplitNl results) = _
  rw [hfirst]
  unfold lineValue
  cases hl : pySplitWs (strDrop line 24) with
  | nil => rw [hl] at h2; cases h2
  | cons t rest =>
    rw [hl] at h2
    simp only [List.head?] at h2
    cases h2
    simp [h3]

theorem pyIndex_ok {α : Type} (l : List α) (i : Nat) (d : α) (h : i < l.length) :
    pyIndex l i = Except.ok (l.getD i d) := by
  unfold pyIndex
  rw [dif_pos h, List.getD_eq_get?, List.get?_eq_get h]
  rfl

theorem pyIndex_err {α : Type} (l : List α) (i : Nat) (h : l.length ≤ i) :
    pyIndex l i = Except.error PyError.indexError := by
  unfold pyIndex
  rw [dif_neg (by omega)]

theorem foldl_append_eq_concatAll {α : Type} (f : α → String) (l : List α) (acc : String) :
    l.foldl (fun a x => a ++ f x) acc = acc ++ concatAll (l.map f) := by
  induction l generalizing acc with
  | nil => simp [concatAll, String.append_empty]
  | cons x rest ih =>
    simp only [List.foldl_cons, List.map_cons, concatAll]
    rw [ih, String.append_assoc]

theorem coordLoop_eq (vs : List PyFloat) : coordLoop vs = concatAll (specPoints vs) := by
  unfold coordLoop specPoints specPoint
  rw [foldl_append_eq_concatAll
    (fun x => "(" ++ toString (x + 1) ++ ", " ++ pyStr (vs.getD x ⟨0, 1⟩) ++ ") ")]
  rw [String.empty_append]

theorem specBlocksFrom_length (results : List (String × List PyFloat)) :
    ∀ i, (specBlocksFrom i results).length = results.length := by
  induction results with
  | nil => intro i; rfl
  | cons kv rest ih => intro i; simp [specBlocksFrom, ih]

theorem specPoints_length (vs : List PyFloat) : (specPoints vs).length = vs.length := by
  simp [specPoints]

theorem specBlocksFrom_getD (results : List (String × List PyFloat)) :
    ∀ i j, j < results.length →
      (specBlocksFrom i results).getD j ""
        = specBlock (COLOURS.getD (i + j) "") ((results.getD j ("", [])).2) := by
  induction results with
  | nil => intro i j hj; simp at hj
  | cons kv rest ih =>
    intro i j hj
    cases j with
    | zero => simp [specBlocksFrom]
    | succ j =>
      have harith : i + (j + 1) = i + 1 + j := by omega
      simp only [specBlocksFrom, List.getD_cons_succ, harith]
      exact ih (i + 1) j (by simpa using hj)

/-- On a successful run the plot loop produces exactly the concatenation of
the per-series coordinate blocks. -/
theorem plotsLoop_ok (results : List (String × List PyFloat)) :
    ∀ i, i + results.length ≤ COLOURS.length →
      plotsLoop i results = Except.ok (concatAll (specBlocksFrom i results)) := by
  induction results with
  | nil => intro i _; rfl
  | cons kv rest ih =>
    intro i h
    have hi : i < COLOURS.length := by simp only [List.length_cons] at h; omega
    unfold plotsLoop
    rw [pyIndex_ok COLOURS i "" hi]
    rw [ih (i + 1) (by simp only [List.length_cons] at h; omega)]
    simp only [specBlocksFrom, concatAll, specBlock]
    rw [coordLoop_eq]

/-- With more series than colours the plot loop raises `IndexError`. -/
theorem plotsLoop_err (results : List (String × List PyFloat)) :
    ∀ i, results ≠ [] → COLOURS.length < i + results.length →
      plotsLoop i results = Except.error PyError.indexError := by
  induction results with
  | nil => intro i hne _; exact absurd rfl hne
  | cons kv rest ih =>
    intro i _ h
    unfold plotsLoop
    by_cases hi : i < COLOURS.length
    · rw [pyIndex_ok COLOURS i "" hi]
      cases hrest : rest with
      | nil =>
        exfalso
        rw [hrest] at h
        simp only [List.length_cons, List.length_nil] at h
        omega
      | cons b bs =>
        rw [← hrest, ih (i + 1) (by rw [hrest]; exact List.cons_ne_nil b bs)
          (by simp only [List.length_cons] at h ⊢; omega)]
    · rw [pyIndex_err COLOURS i (by omega)]

/-- Decomposition of a successful `generate_tex` run into the axis header, the
coordinate blocks and the legend block. -/
theorem generate_tex_ok (xl yl : String) (xmin xmax ymin ymax : Int) (xt yt : List String)
    (results : List (String × List PyFloat)) (h : results.length ≤ COLOURS.length) :
    generate_tex xl yl xmin xmax ymin ymax xt yt results
      = Except.ok (axisHeader xl yl xmin xmax ymin ymax xt yt
          ++ concatAll (specBlocks results) ++ legendFooter results) := by
  unfold generate_tex specBlocks
  rw [plotsLoop_ok results 0 (by omega)]

theorem parse_bench_results_first_label_line_witness :
    parse_bench_results "Requests per second:    1234.5 [#/sec] (mean)"
        "Requests per second" = Except.ok ⟨12345, 10⟩ ∧
      (⟨12345, 10⟩ : PyFloat).val = 1234.5 := by
  refine ⟨parse_bench_results_first_label_line _ _
    "Requests per second:    1234.5 [#/sec] (mean)" "1234.5" _
    (by decide) (by decide) (by decide), ?_⟩
  norm_num [PyFloat.val]

/-- Claim C3: whenever `generate_tex` produces output, the output contains
exactly one coordinate block per key of the series mapping, in the mapping's
order (it is the axis header, then the concatenation of the per-key blocks,
then the legend block); the block list has one entry per key, and each block
holds one point per sample of its series, the j-th point (1-based) pairing j
with the j-th sample, as `specPoint`/`specPoints`/`specBlock` transcribe. -/
theorem generate_tex_coordinate_blocks (xl yl : String) (xmin xmax ymin ymax : Int)
    (xt yt : List String) (results : List (String × List PyFloat)) (s : String)
    (h : generate_tex xl yl xmin xmax ymin ymax xt yt results = Except.ok s) :
    s = axisHeader xl yl xmin xmax ymin ymax xt yt
        ++ concatAll (specBlocks results) ++ legendFooter results ∧
      (specBlocks results).length = results.length ∧
      ∀ i, i < results.length →
        (specPoints ((results.getD i ("", [])).2)).length
          = ((results.getD i ("", [])).2).length := by
  have hlen : results.length ≤ COLOURS.length := by
    by_contra hlt
    push_neg at hlt
    have hne : results ≠ [] := by
      cases results with
      | nil => simp [COLOURS] at hlt
      | cons a l => exact List.cons_ne_nil a l
    have herr := plotsLoop_err results 0 hne (by omega)
    unfold generate_tex at h
    rw [herr] at h
    cases h
  rw [generate_tex_ok xl yl xmin xmax ymin ymax xt yt results hlen] at h
  have h2 := Except.ok.inj h
  subst h2
  exact ⟨rfl, specBlocksFrom_length results 0, fun i _ => specPoints_length _⟩

theorem generate_tex_coordinate_blocks_witness :
    generate_tex "Threads" "RPS" 0 8 0 100 ["0"] ["0"]
        [("Humphrey", [⟨3, 2⟩]), ("Nginx", [⟨1, 4⟩])]
      = Except.ok (axisHeader "Threads" "RPS" 0 8 0 100 ["0"] ["0"]
          ++ concatAll (specBlocks [("Humphrey", [⟨3, 2⟩]), ("Nginx", [⟨1, 4⟩])])
          ++ legendFooter [("Humphrey", [⟨3, 2⟩]), ("Nginx", [⟨1, 4⟩])]) ∧
      (specBlocks [("Humphrey", [⟨3, 2⟩]), ("Nginx", [⟨1, 4⟩])]).length = 2 := by
  have h := generate_tex_ok "Threads" "RPS" 0 8 0 100 ["0"] ["0"]
    [("Humphrey", [⟨3, 2⟩]), ("Nginx", [⟨1, 4⟩])] (by decide)
  exact ⟨h, ((generate_tex_coordinate_blocks _ _ _ _ _ _ _ _ _ _ h).2.1).trans rfl⟩

/-- Claim C7: whenever `generate_tex` produces output, the legend block lists
the endpoint names in the order of the input mapping, joined by commas, and
the i-th series (input order) is assigned the i-th colour of the fixed
three-colour palette. -/
theorem generate_tex_legend_and_colours (xl yl : String) (xmin xmax ymin ymax : Int)
    (xt yt : List String) (results : List (String × List PyFloat)) (s : String)
    (h : generate_tex xl yl xmin xmax ymin ymax xt yt results = Except.ok s) :
    s = axisHeader xl yl xmin xmax ymin ymax xt yt ++ concatAll (specBlocks results)
        ++ ("\\legend\x7b" ++ String.intercalate "," (results.map Prod.fst) ++ "\x7d\n"
          ++ "\\end\x7baxis\x7d\n\\end\x7btikzpicture\x7d\n\\end\x7bcenter\x7d\n") ∧
      ∀ i, i < results.length →
        (specBlocks results).getD i ""
          = specBlock (COLOURS.getD i "") ((results.getD i ("", [])).2) := by
  have hlen : results.length ≤ COLOURS.length := by
    by_contra hlt
    push_neg at hlt
    have hne : results ≠ [] := by
      cases results with
      | nil => simp [COLOURS] at hlt
      | cons a l => exact List.cons_ne_nil a l
    have herr := plotsLoop_err results 0 hne (by omega)
    unfold generate_tex at h
    rw [herr] at h
    cases h
  rw [generate_tex_ok xl yl xmin xmax ymin ymax xt yt results hlen] at h
  have h2 := Except.ok.inj h
  subst h2
  refine ⟨rfl, fun i hi => ?_⟩
  have := specBlocksFrom_getD results 0 i hi
  simpa [specBlocks] using this

theorem generate_tex_legend_and_colours_witness :
    generate_tex "x" "y" 0 8 0 100 ["0"] ["0"] demoSeries
      = Except.ok (axisHeader "x" "y" 0 8 0 100 ["0"] ["0"] ++ concatAll (specBlocks demoSeries)
          ++ ("\\legend\x7bA,B\x7d\n\\end\x7baxis\x7d\n\\end\x7btikzpicture\x7d\n\\end\x7bcenter\x7d\n")) ∧
      (specBlocks demoSeries).getD 0 "" = specBlock "green" [⟨10, 1⟩, ⟨20, 1⟩] ∧
      concatAll (specPoints [⟨10, 1⟩, ⟨20, 1⟩]) = "(1, 10.0) (2, 20.0) " ∧
      concatAll (specPoints [⟨5, 1⟩, ⟨15, 1⟩]) = "(1, 5.0) (2, 15.0) " := by
  have h := generate_tex_ok "x" "y" 0 8 0 100 ["0"] ["0"] demoSeries (by decide)
  have hall := generate_tex_legend_and_colours "x" "y" 0 8 0 100 ["0"] ["0"] demoSeries _ h
  have hleg : "\\legend\x7b" ++ String.intercalate "," (demoSeries.map Prod.fst) ++ "\x7d\n"
      ++ "\\end\x7baxis\x7d\n\\end\x7btikzpicture\x7d\n\\end\x7bcenter\x7d\n"
      = "\\legend\x7bA,B\x7d\n\\end\x7baxis\x7d\n\\end\x7btikzpicture\x7d\n\\end\x7bcenter\x7d\n" := by
    decide
  refine ⟨?_, ?_, by decide, by decide⟩
  · rw [h]
    exact congrArg Except.ok (hall.1.trans
      (congrArg (fun z => axisHeader "x" "y" 0 8 0 100 ["0"] ["0"]
        ++ concatAll (specBlocks demoSeries) ++ z) hleg))
  · exact (hall.2 0 (by decide)).trans rfl

/-- Claim C8: `generate_tex` is a pure deterministic function — two calls with
identical axis configuration and identical series mappings produce
byte-identical markup; the embedding reads nothing besides the arguments and
the constant palette. -/
theorem generate_tex_deterministic (xl xl2 yl yl2 : String)
    (xmin xmin2 xmax xmax2 ymin ymin2 ymax ymax2 : Int) (xt xt2 yt yt2 : List String)
    (results results2 : List (String × List PyFloat))
    (h1 : xl = xl2) (h2 : yl = yl2) (h3 : xmin = xmin2) (h4 : xmax = xmax2)
    (h5 : ymin = ymin2) (h6 : ymax = ymax2) (h7 : xt = xt2) (h8 : yt = yt2)
    (h9 : results = results2) :
    generate_tex xl yl xmin xmax ymin ymax xt yt results
      = generate_tex xl2 yl2 xmin2 xmax2 ymin2 ymax2 xt2 yt2 results2 := by
  subst h1 h2 h3 h4 h5 h6 h7 h8 h9
  rfl

theorem generate_tex_deterministic_witness :
    generate_tex "a" "b" 0 1 0 1 ["0"] ["1"] [("A", [⟨1, 2⟩])]
      = generate_tex "a" "b" 0 1 0 1 ["0"] ["1"] [("A", [⟨1, 2⟩])] :=
  generate_tex_deterministic "a" "a" "b" "b" 0 0 1 1 0 0 1 1 ["0"] ["0"] ["1"] ["1"]
    [("A", [⟨1, 2⟩])] [("A", [⟨1, 2⟩])] rfl rfl rfl rfl rfl rfl rfl rfl rfl

/-- Claim C9: with at most three series keys the palette lookup of
`generate_tex` never goes out of range (it returns output); with more than
three keys the colour lookup raises `IndexError` and no output (hence no
colour assignment) is produced. -/
theorem generate_tex_palette_range (xl yl : String) (xmin xmax ymin ymax : Int)
    (xt yt : List String) (results : List (String × List PyFloat)) :
    (results.length ≤ 3 →
        (generate_tex xl yl xmin xmax ymin ymax xt yt results).isOk = true) ∧
      (3 < results.length →
        generate_tex xl yl xmin xmax ymin ymax xt yt results
          = Except.error PyError.indexError) := by
  have hC : COLOURS.length = 3 := rfl
  constructor
  · intro h
    rw [generate_tex_ok xl yl xmin xmax ymin ymax xt yt results (by omega)]
    rfl
  · intro h
    have hne : results ≠ [] := by
      cases results with
      | nil => simp at h
      | cons a l => exact List.cons_ne_nil a l
    unfold generate_tex
    rw [plotsLoop_err results 0 hne (by omega)]

theorem generate_tex_palette_range_witness :
    (generate_tex "x" "y" 0 1 0 1 [] [] [("A", []), ("B", []), ("C", [])]).isOk = true ∧
      generate_tex "x" "y" 0 1 0 1 [] [] [("A", []), ("B", []), ("C", []), ("D", [])]
        = Except.error PyError.indexError :=
  ⟨(generate_tex_palette_range "x" "y" 0 1 0 1 [] [] [("A", []), ("B", []), ("C", [])]).1
      (by decide),
    (generate_tex_palette_range "x" "y" 0 1 0 1 [] []
        [("A", []), ("B", []), ("C", []), ("D", [])]).2 (by decide)⟩

/-- Claim C4 counterexample: for the file `foo.rs` discovered under
`./humphrey/src/tests` with test separation enabled, the copy is NOT placed at
`pkg/.-humphrey-src-tests-foo.rs`: the source strips the two leading
characters (`./`) of the joined path before rewriting, so no `.-` prefix can
appear.  Under the backslash path separator (the character the `replace`
calls target) the copy lands at `pkg/humphrey-src-tests-foo.rs`; under the
forward-slash separator the separators are not replaced at all. -/
theorem processFile_no_dot_hyphen_cex :
    (processFile "\\" ".\\humphrey\\src\\tests" "foo.rs").destPath
        = "pkg/humphrey-src-tests-foo.rs" ∧
      (processFile "\\" ".\\humphrey\\src\\tests" "foo.rs").destPath
        ≠ "pkg/.-humphrey-src-tests-foo.rs" ∧
      (processFile "/" "./humphrey/src/tests" "foo.rs").destPath
        = "pkg/humphrey/src/tests/foo.rs" := by
  exact ⟨by decide, by decide, by decide⟩

/-- Claim C4 (amended): with test separation enabled, the file
`./humphrey/src/tests/foo.rs` passes the extension filter and is routed to the
tests output stream (the string `"tests"` occurs in its path); under the
backslash separator targeted by the source's `replace` calls, its copy is
placed at `pkg/humphrey-src-tests-foo.rs` — the leading `./` is stripped
before every separator and underscore is replaced by a hyphen, with the
extension preserved. -/
theorem processFile_tests_routing :
    extensionMatches "foo.rs" = true ∧
      (processFile "\\" ".\\humphrey\\src\\tests" "foo.rs").toTests = true ∧
      (processFile "\\" ".\\humphrey\\src\\tests" "foo.rs").destPath
        = "pkg/humphrey-src-tests-foo.rs" := by
  exact ⟨by decide, by decide, by decide⟩

theorem runTrials_ok (bench : BenchArgs → String) (port : Nat) (l : List Nat)
    (r : TrialsResult) (h : runTrials bench port l = Except.ok r) :
    r.rps.length = l.length ∧ r.tpr.length = l.length ∧
      r.trace = l.map (fun i => BenchArgs.mk REQUESTS (i + 1) true port false) := by
  induction l generalizing r with
  | nil =>
    unfold runTrials at h
    have := Except.ok.inj h
    subst this
    exact ⟨rfl, rfl, rfl⟩
  | cons i rest ih =>
    unfold runTrials at h
    cases hp1 : parse_bench_results (bench ⟨REQUESTS, i + 1, true, port, false⟩)
        "Requests per second" with
    | error e => rw [hp1] at h; cases h
    | ok rps =>
      rw [hp1] at h
      cases hp2 : parse_bench_results (bench ⟨REQUESTS, i + 1, true, port, false⟩)
          "Time per request" with
      | error e => rw [hp2] at h; cases h
      | ok tpr =>
        rw [hp2] at h
        cases hr : runTrials bench port rest with
        | error e => rw [hr] at h; cases h
        | ok r0 =>
          rw [hr] at h
          have := Except.ok.inj h
          subst this
          obtain ⟨ih1, ih2, ih3⟩ := ih r0 hr
          simp [ih1, ih2, ih3]

theorem coreLoop_ok (bench : BenchArgs → String) (servers : List String) (r : CoreResult)
    (h : coreLoop bench servers = Except.ok r) :
    r.rps.map Prod.fst = servers ∧ r.tpr.map Prod.fst = servers ∧
      r.rps.map (fun p => p.2.length) = servers.map (fun _ => CORES_LIMIT) ∧
      r.tpr.map (fun p => p.2.length) = servers.map (fun _ => CORES_LIMIT) ∧
      r.trace = servers.bind (fun server => (List.range CORES_LIMIT).map
        (fun i => BenchArgs.mk REQUESTS (i + 1) true ((PORTS.lookup server).getD 0) false)) := by
  induction servers generalizing r with
  | nil =>
    unfold coreLoop at h
    have := Except.ok.inj h
    subst this
    exact ⟨rfl, rfl, rfl, rfl, rfl⟩
  | cons server rest ih =>
    unfold coreLoop at h
    cases ht : runTrials bench ((PORTS.lookup server).getD 0) (List.range CORES_LIMIT) with
    | error e => rw [ht] at h; cases h
    | ok tr =>
      rw [ht] at h
      cases hc : coreLoop bench rest with
      | error e => rw [hc] at h; cases h
      | ok cr =>
        rw [hc] at h
        have := Except.ok.inj h
        subst this
        obtain ⟨h1, h2, h3⟩ := runTrials_ok bench _ _ tr ht
        obtain ⟨g1, g2, g3, g4, g5⟩ := ih cr hc
        simp [h1, h2, h3, g1, g2, g3, g4, g5]

/-- Claim C5: on every completed benchmark run of the driver, each endpoint's
stored series (both requests-per-second and time-per-request) has length
exactly `CORES_LIMIT = 8`, one sample per trial; the trace of load-generator
invocations is, per endpoint in the fixed order, exactly concurrency levels
1..8 with `REQUESTS` total requests, keep-alive enabled and `php = False`.
No partial or failed sample can appear: a parse failure aborts the whole run
(the result is then an error, not a series). -/
theorem core_series_lengths_and_trace (bench : BenchArgs → String) (r : CoreResult)
    (h : core bench = Except.ok r) :
    r.rps.map Prod.fst = SERVERS ∧ r.tpr.map Prod.fst = SERVERS ∧
      r.rps.map (fun p => p.2.length) = [CORES_LIMIT, CORES_LIMIT, CORES_LIMIT] ∧
      r.tpr.map (fun p => p.2.length) = [CORES_LIMIT, CORES_LIMIT, CORES_LIMIT] ∧
      r.trace = SERVERS.bind (fun server => (List.range CORES_LIMIT).map
        (fun i => BenchArgs.mk REQUESTS (i + 1) true ((PORTS.lookup server).getD 0) false)) := by
  obtain ⟨g1, g2, g3, g4, g5⟩ := coreLoop_ok bench SERVERS r h
  exact ⟨g1, g2, g3.trans rfl, g4.trans rfl, g5⟩

theorem core_series_lengths_and_trace_witness :
    core (fun _ => goodReport) = Except.ok goodRun ∧
      goodRun.rps.map (fun p => p.2.length) = [8, 8, 8] ∧
      goodRun.rps.map Prod.fst = SERVERS := by
  have h : core (fun _ => goodReport) = Except.ok goodRun := by decide
  have hc := core_series_lengths_and_trace (fun _ => goodReport) goodRun h
  exact ⟨h, hc.2.2.1.trans rfl, hc.1⟩

/-- Exact division of a `PyFloat` by a natural number matches rational
division of the denoted values. -/
theorem PyFloat.val_divNat (q : PyFloat) (n : Nat) :
    (q.divNat n).val = q.val / (n : ℚ) := by
  unfold PyFloat.val PyFloat.divNat
  push_cast
  rw [div_div]

/-- Claim C6: for every parsed trial result, the sample appended to the
requests-per-second series is the extracted "Requests per second" value
divided by 1000 (exactly, at the level of denoted rationals), and the sample
appended to the time-per-request series is the extracted "Time per request"
value unchanged.  Stated for the trial at the head of an arbitrary suffix of
the trial loop, which covers every trial of a run. -/
theorem runTrials_stores_scaled (bench : BenchArgs → String) (port i : Nat)
    (rest : List Nat) (r : TrialsResult) (v w : PyFloat)
    (h : runTrials bench port (i :: rest) = Except.ok r)
    (hv : parse_bench_results (bench ⟨REQUESTS, i + 1, true, port, false⟩)
        "Requests per second" = Except.ok v)
    (hw : parse_bench_results (bench ⟨REQUESTS, i + 1, true, port, false⟩)
        "Time per request" = Except.ok w) :
    r.rps.head? = some (v.divNat 1000) ∧ (v.divNat 1000).val = v.val / 1000 ∧
      r.tpr.head? = some w := by
  unfold runTrials at h
  rw [hv, hw] at h
  cases hr : runTrials bench port rest with
  | error e => rw [hr] at h; cases h
  | ok r0 =>
    rw [hr] at h
    have := Except.ok.inj h
    subst this
    refine ⟨rfl, ?_, rfl⟩
    have := PyFloat.val_divNat v 1000
    simpa using this

theorem runTrials_stores_scaled_witness :
    goodTrial.rps.head? = some ((⟨12345, 10⟩ : PyFloat).divNat 1000) ∧
      ((⟨12345, 10⟩ : PyFloat).divNat 1000).val = (⟨12345, 10⟩ : PyFloat).val / 1000 ∧
      goodTrial.tpr.head? = some ⟨405, 1000⟩ :=
  runTrials_stores_scaled (fun _ => goodReport) 80 0 [] goodTrial ⟨12345, 10⟩ ⟨405, 1000⟩
    (by decide) (by decide) (by decide)
